import Mathlib

/-!
# Seibi_QR: FINS/UDP client and scan session of `src/main.cpp`

A shallow embedding of the core of `src/main.cpp`.

* Bytes are natural numbers below 256; a byte string (an Arduino `String`, the contents of a
  `char` buffer) is a `List Nat`.
* The file-scope variables, the two function-local `static` SID counters and the value last
  passed to `qrcode.setDecodeTrigger` form the record `State`.
* Calls into the libraries (`WiFi.status`, `udp.parsePacket`, `udp.read`, `udp.endPacket`,
  `millis`, the scanner and the buttons) return values the program does not control: they are
  inputs of the embedded functions.
* What the program does to the outside (socket, `delay`, scanner trigger, outcome lines on the
  canvas) is recorded as a list of `Event`s, in program order.
-/

namespace SeibiQR

/-! ## Constants (`src/main.cpp`, lines 45-72) -/

def PLC_NODE_ADDRESS : Nat := 0x02
def PC_NODE_ADDRESS : Nat := 0xFA
def UDP_RETRY_MAX : Nat := 3
def UDP_RETRY_DELAY : Nat := 1000
def FINS_RESPONSE_TIMEOUT : Nat := 3000
def FINS_MEMORY_AREA_DM : Nat := 0x82
def FINS_START_ADDRESS : Nat := 0x0FA0
def SCAN_TIMEOUT_MS : Nat := 20000
def KEEPALIVE_INTERVAL : Nat := 15000

/-- Size of the local buffer `uint8_t finsPacket[512]` of `sendQRCodeData`. -/
def FINS_PACKET_CAPACITY : Nat := 512

/-- Size of the local buffer `uint8_t buffer[512]` of `handleQRCodeScan`. -/
def DECODE_BUFFER_CAPACITY : Nat := 512

/-! ## Framing of the memory-area-write request (`sendQRCodeData`, lines 323-385) -/

/-- The ASCII bytes of a string literal. -/
def ascii (s : String) : List Nat := s.toList.map Char.toNat

/-- Conversion `String(const char*)`: the bytes at the pointer up to, not including, the first
NUL. -/
def cString (p : List Nat) : List Nat := p.takeWhile (fun b => b != 0)

/-- The characters written by `sprintf(seqStr, "%02d", n)`: the decimal digits of `n`, padded on
the left with `'0'` to a width of at least two. -/
def sprintf02d (n : Nat) : List Nat :=
  if n < 10 then [48, 48 + n] else (Nat.toDigits 10 n).map Char.toNat

/-- The ten header bytes `finsHeader[0..9]`; the last one is the SID. -/
def finsHeader (sid : Nat) : List Nat :=
  [0x80, 0x00, 0x02, 0x00, PLC_NODE_ADDRESS, 0x00, 0x00, PC_NODE_ADDRESS, 0x00, sid]

/-- The two command bytes `finsCommand[0..1]` (memory area write). -/
def finsCommand : List Nat := [0x01, 0x02]

/-- Line 344: `LINE_NUM + OP_NUM + String(status) + String(data) + String(seqStr)`. -/
def writeData (lineNum opNum status data : List Nat) (currentSequence : Nat) : List Nat :=
  lineNum ++ opNum ++ cString status ++ cString data ++ sprintf02d currentSequence

/-- Line 348: `(dataLen + 1) / 2`. -/
def wordCount (dataLen : Nat) : Nat := (dataLen + 1) / 2

/-- The six parameter bytes `writeParams[0..5]`. -/
def writeParams (wc : Nat) : List Nat :=
  [FINS_MEMORY_AREA_DM, (FINS_START_ADDRESS >>> 8) &&& 0xFF, FINS_START_ADDRESS &&& 0xFF, 0x00,
    (wc >>> 8) &&& 0xFF, wc &&& 0xFF]

/-- Line 361: `10 + 2 + 6 + (wordCount * 2)`, the length handed to `udp.write`. -/
def packetSize (wc : Nat) : Nat := 10 + 2 + 6 + wc * 2

/-- The loop of lines 378-385: each pass stores `writeData[i]` and then either
`writeData[i + 1]` or, when `i + 1` is past the end, the padding byte `0x00`. The result lists
the bytes stored, in the order of `offset++`. -/
def packData : List Nat → List Nat
  | [] => []
  | [a] => [a, 0x00]
  | a :: b :: rest => a :: b :: packData rest

/-- The stores of lines 366-385 into `finsPacket`, in the order of `offset`: entry `i` is the
byte stored at `finsPacket[i]`, and the length of the list is the final value of `offset`.
The array has `FINS_PACKET_CAPACITY` entries and the source checks no length, so the list
describes the array exactly while its length is at most `FINS_PACKET_CAPACITY` (written string
of at most 494 bytes); entries from index 512 on are stores past the end of the array, and a
statement about the datagram sent holds for the program only under that bound. -/
def finsPacket (sid : Nat) (wd : List Nat) : List Nat :=
  finsHeader sid ++ finsCommand ++ writeParams (wordCount wd.length) ++ packData wd

/-- The datagram `udp.write(finsPacket, packetSize)` hands to the socket: the first `size`
bytes of the buffer. -/
def datagram (buffer : List Nat) (size : Nat) : List Nat := buffer.take size

/-! ## Program state, inputs and observable events -/

/-- The mutable variables of the program. -/
structure State where
  /-- Global `String LINE_NUM`. -/
  LINE_NUM : List Nat
  /-- Global `String OP_NUM`. -/
  OP_NUM : List Nat
  /-- Global `String currentStatus`. -/
  currentStatus : List Nat
  /-- Global `unsigned long scanStartTime` (0 = no scan running). -/
  scanStartTime : Nat
  /-- Global `unsigned long lastCommunicationTime`. -/
  lastCommunicationTime : Nat
  /-- Global `uint8_t sequenceNumber`. -/
  sequenceNumber : Nat
  /-- The `static uint8_t sid` of `sendQRCodeData`. -/
  sid : Nat
  /-- The `static uint8_t sid` of `sendKeepAlive`. -/
  keepAliveSid : Nat
  /-- The value last passed to `qrcode.setDecodeTrigger` (0 before any call). -/
  decodeTrigger : Nat
  deriving DecidableEq, Repr

/-- The canvas lines that name an outcome (progress lines and the end-code explanations of
lines 449-469 only print and are left out). -/
inductive Msg where
  /-- Line 295, "WiFi not connected". -/
  | wifiNotConnected
  /-- Line 399, "UDP send failed". -/
  | udpSendFailed
  /-- Line 439, "PLC write succeeded". -/
  | writeSucceeded
  /-- Lines 435 and 446, "PLC error" with the two end-code bytes. -/
  | plcError (mainEndCode subEndCode : Nat)
  /-- Line 493, "response timeout". -/
  | responseTimeout
  /-- Line 507, "PLC write failed: retry limit reached". -/
  | retryLimitReached
  /-- Line 619, start mode selected. -/
  | startMode
  /-- Line 627, reading cancelled. -/
  | readCancelled
  /-- Line 636, completion mode selected. -/
  | completeMode
  /-- Line 655, "QR read timeout". -/
  | scanTimeout
  deriving DecidableEq, Repr

/-- What the program does to its environment. -/
inductive Event where
  /-- One pass of the drain loop of lines 388-390: a pending packet dropped by `udp.flush()`. -/
  | udpFlush
  /-- Call sequence `udp.beginPacket; udp.write(buffer, size); udp.endPacket`. -/
  | udpWrite (buffer : List Nat) (size : Nat)
  /-- Call `delay(ms)`. -/
  | delay (ms : Nat)
  /-- Call `qrcode.setDecodeTrigger(v)`. -/
  | setDecodeTrigger (v : Nat)
  /-- An outcome line printed on the canvas. -/
  | println (m : Msg)
  /-- A store past the end of `buffer[512]` in `handleQRCodeScan` (lines 592-593 with a decode
  of 512 bytes or more). From there the behaviour of the C program is undefined: the function
  is ended at this event, and a trace describes the program only up to it. -/
  | bufferOverrun
  deriving DecidableEq, Repr

/-- What one pass of the response wait loop (lines 420-483) reads from the socket. -/
structure Poll where
  /-- Result of `udp.parsePacket()`. -/
  packetSize : Int
  /-- Result of `udp.read(response, sizeof(response))`, called only when `packetSize >= 14`. -/
  len : Int
  /-- Contents of `response[]` after that read. -/
  response : List Nat
  deriving DecidableEq, Repr

/-- What one attempt of `sendQRCodeData` reads from its environment. -/
structure AttemptInput where
  /-- Number of times `udp.parsePacket()` is positive in the drain loop before the send. -/
  drained : Nat
  /-- Result of `udp.endPacket()`. -/
  endPacket : Int
  /-- Value of `millis()` stored into `lastCommunicationTime` after a successful send. -/
  millis : Nat
  /-- The passes of the response wait loop that run before `millis() - startTime` reaches
  `FINS_RESPONSE_TIMEOUT`; when they are used up the loop ends by its condition. -/
  polls : List Poll
  deriving DecidableEq, Repr

/-- Byte `i` of a received buffer. -/
def byteAt (buf : List Nat) (i : Nat) : Nat := buf.getD i 0

/-! ## `sendQRCodeData` (lines 292-510) -/

/-- The pause before a retry, lines 403-407, 473-477 and 497-501:
`if (attempt < UDP_RETRY_MAX) delay(UDP_RETRY_DELAY)`. -/
def retryPause (attempt : Nat) : List Event :=
  if attempt < UDP_RETRY_MAX then [Event.delay UDP_RETRY_DELAY] else []

/-- The response wait loop of one attempt, lines 420-483. Returns the events of the loop and the
value of `success` after it. A packet decides the attempt as soon as `packetSize >= 14` and
`len >= 14`: end code `00 00` sets `success` and leaves the loop; any other end code prints the
error, sleeps `UDP_RETRY_DELAY` when `attempt < UDP_RETRY_MAX`, and leaves the loop. Otherwise
the pass ends with `delay(10)`. -/
def responseWait (attempt : Nat) : List Poll → List Event × Bool
  | [] => ([], false)
  | p :: rest =>
    if 14 ≤ p.packetSize ∧ 14 ≤ p.len then
      let mainEndCode := byteAt p.response 12
      let subEndCode := byteAt p.response 13
      if mainEndCode = 0x00 ∧ subEndCode = 0x00 then
        ([Event.println Msg.writeSucceeded], true)
      else
        (Event.println (Msg.plcError mainEndCode subEndCode) :: retryPause attempt, false)
    else
      let r := responseWait attempt rest
      (Event.delay 10 :: r.1, r.2)

/-- The retry loop of lines 313-503, `remaining` passes starting with attempt number `attempt`
(the function is called with `remaining = UDP_RETRY_MAX` and `attempt = 1`). Returns the state,
the events and the value of `success` after the loop. -/
def attemptLoop (data status : List Nat) (currentSequence : Nat) (input : Nat → AttemptInput) :
    Nat → Nat → State → State × List Event × Bool
  | 0, _, s => (s, [], false)
  | remaining + 1, attempt, s =>
    let a := input attempt
    -- finsHeader[9] = sid++
    let sidByte := s.sid
    let s1 := { s with sid := (s.sid + 1) % 256 }
    let wd := writeData s.LINE_NUM s.OP_NUM status data currentSequence
    let wc := wordCount wd.length
    let buffer := finsPacket sidByte wd
    let sendEvents := List.replicate a.drained Event.udpFlush ++ [Event.udpWrite buffer (packetSize wc)]
    if a.endPacket ≠ 1 then
      -- lines 398-409: send failure, then `continue`
      let failEvents := Event.println Msg.udpSendFailed :: retryPause attempt
      let r := attemptLoop data status currentSequence input remaining (attempt + 1) s1
      (r.1, sendEvents ++ failEvents ++ r.2.1, r.2.2)
    else
      let s2 := { s1 with lastCommunicationTime := a.millis }
      let w := responseWait attempt a.polls
      if w.2 then
        -- lines 486-488
        (s2, sendEvents ++ w.1, true)
      else
        -- lines 492-502
        let timeoutEvents := Event.println Msg.responseTimeout :: retryPause attempt
        let r := attemptLoop data status currentSequence input remaining (attempt + 1) s2
        (r.1, sendEvents ++ w.1 ++ timeoutEvents ++ r.2.1, r.2.2)

/-- Lines 303-306: `sequenceNumber++` on a `uint8_t`, then reset to 0 when above 99. -/
def nextSequence (sequenceNumber : Nat) : Nat :=
  let n := (sequenceNumber + 1) % 256
  if n > 99 then 0 else n

/-- Function `sendQRCodeData(data, status)`. `wifiConnected` is `WiFi.status() == WL_CONNECTED`
and `input k` is what attempt `k` reads from its environment. -/
def sendQRCodeData (wifiConnected : Bool) (data status : List Nat) (input : Nat → AttemptInput)
    (s : State) : State × List Event :=
  if !wifiConnected then
    (s, [Event.println Msg.wifiNotConnected])
  else
    let s1 := { s with sequenceNumber := nextSequence s.sequenceNumber }
    let currentSequence := s1.sequenceNumber
    let r := attemptLoop data status currentSequence input UDP_RETRY_MAX 1 s1
    (r.1, r.2.1 ++ (if !r.2.2 then [Event.println Msg.retryLimitReached] else []))

/-- The `(buffer, size)` pairs of the `udp.write` calls of a trace, in order. -/
def sentPackets : List Event → List (List Nat × Nat)
  | [] => []
  | Event.udpWrite buffer size :: rest => (buffer, size) :: sentPackets rest
  | _ :: rest => sentPackets rest

/-- The `delay` arguments of a trace, in order. -/
def delays : List Event → List Nat
  | [] => []
  | Event.delay ms :: rest => ms :: delays rest
  | _ :: rest => delays rest

/-- Number of `udp.flush()` calls of a trace. -/
def flushCount (trace : List Event) : Nat := trace.count Event.udpFlush

/-! ## Keep-alive (lines 516-575) -/

/-- Unsigned 32-bit subtraction `a - b` of two `unsigned long` values. -/
def sub32 (a b : Nat) : Nat := (a % 2 ^ 32 + 2 ^ 32 - b % 2 ^ 32) % 2 ^ 32

/-- The twelve bytes stored into `finsPacket` by `sendKeepAlive`. -/
def keepAlivePacket (sid : Nat) : List Nat := finsHeader sid ++ [0x07, 0x01]

/-- Function `sendKeepAlive()`; `millis` is the value stored into `lastCommunicationTime`. -/
def sendKeepAlive (wifiConnected : Bool) (millis : Nat) (s : State) : State × List Event :=
  if !wifiConnected then
    (s, [])
  else
    let sidByte := s.keepAliveSid
    let s1 := { s with keepAliveSid := (s.keepAliveSid + 1) % 256 }
    ({ s1 with lastCommunicationTime := millis }, [Event.udpWrite (keepAlivePacket sidByte) (10 + 2)])

/-- What `checkKeepAlive` and the `sendKeepAlive` it calls read from the environment. -/
structure KeepAliveInput where
  /-- `WiFi.status() == WL_CONNECTED` in `checkKeepAlive`. -/
  wifiConnected : Bool
  /-- `millis()` in the comparison of line 572. -/
  millis : Nat
  /-- `WiFi.status() == WL_CONNECTED` in `sendKeepAlive`. -/
  wifiConnectedAtSend : Bool
  /-- `millis()` in `sendKeepAlive`, line 558. -/
  millisAtSend : Nat
  deriving DecidableEq, Repr

/-- Function `checkKeepAlive()`. -/
def checkKeepAlive (k : KeepAliveInput) (s : State) : State × List Event :=
  if !k.wifiConnected then
    (s, [])
  else if KEEPALIVE_INTERVAL ≤ sub32 k.millis s.lastCommunicationTime then
    sendKeepAlive k.wifiConnectedAtSend k.millisAtSend s
  else
    (s, [])

/-! ## Scan session (lines 584-658) and the loop (lines 715-724) -/

/-- What `handleQRCodeScan` reads from the scanner and, through `sendQRCodeData`, from the
network. -/
structure ScanInput where
  /-- Result of `qrcode.getDecodeReadyStatus()`. -/
  decodeReadyStatus : Nat
  /-- The `getDecodeLength()` bytes `getDecodeData` stores into `buffer`. -/
  decodeData : List Nat
  /-- `WiFi.status() == WL_CONNECTED` in `sendQRCodeData`. -/
  wifiConnected : Bool
  /-- What the attempts of `sendQRCodeData` read. -/
  attempts : Nat → AttemptInput

/-- Function `handleQRCodeScan()`. `getDecodeData(buffer, length)` stores the `length`
decoded bytes into `uint8_t buffer[512]` and `buffer[length] = 0` terminates them: with 512
bytes or more these stores leave the array, which ends the function with `bufferOverrun` and
the state as it was. Otherwise `buffer` is passed as a C string, its bytes up to the first NUL
(`writeData` applies `cString`). -/
def handleQRCodeScan (q : ScanInput) (s : State) : State × List Event :=
  if q.decodeReadyStatus ≠ 1 then
    (s, [])
  else if DECODE_BUFFER_CAPACITY ≤ q.decodeData.length then
    (s, [Event.bufferOverrun])
  else
    let r :=
      if s.currentStatus ≠ [] then
        sendQRCodeData q.wifiConnected q.decodeData s.currentStatus q.attempts s
      else (s, [])
    ({ r.1 with scanStartTime := 0 }, r.2)

/-- What `handleButtonInput` reads: the three `wasPressed()` flags and the `millis()` values
read in the A and C branches. -/
structure ButtonInput where
  btnA : Bool
  btnB : Bool
  btnC : Bool
  millisA : Nat
  millisC : Nat
  deriving DecidableEq, Repr

/-- Function `handleButtonInput()`: the three `if` blocks, in order. -/
def handleButtonInput (b : ButtonInput) (s : State) : State × List Event :=
  let r1 : State × List Event :=
    if b.btnA then
      ({ s with currentStatus := ascii "01", decodeTrigger := 1, scanStartTime := b.millisA },
        [Event.setDecodeTrigger 1, Event.println Msg.startMode])
    else (s, [])
  let r2 : State × List Event :=
    if b.btnB then
      ({ r1.1 with decodeTrigger := 0, scanStartTime := 0 },
        r1.2 ++ [Event.setDecodeTrigger 0, Event.println Msg.readCancelled])
    else r1
  if b.btnC then
    ({ r2.1 with currentStatus := ascii "02", decodeTrigger := 1, scanStartTime := b.millisC },
      r2.2 ++ [Event.setDecodeTrigger 1, Event.println Msg.completeMode])
  else r2

/-- Function `checkScanTimeout()`; `millis` is the value read on line 652. -/
def checkScanTimeout (millis : Nat) (s : State) : State × List Event :=
  if s.scanStartTime = 0 then
    (s, [])
  else if SCAN_TIMEOUT_MS ≤ sub32 millis s.scanStartTime then
    ({ s with decodeTrigger := 0, scanStartTime := 0 },
      [Event.setDecodeTrigger 0, Event.println Msg.scanTimeout])
  else
    (s, [])

/-- What one pass of `loop()` reads. -/
structure LoopInput where
  scan : ScanInput
  buttons : ButtonInput
  /-- `millis()` in `checkScanTimeout`. -/
  millisTimeout : Nat
  keepAlive : KeepAliveInput

/-- Function `loop()` (manual scan mode, `I2C_AUTO_SCAN_MODE` undefined): `handleQRCodeScan`,
`handleButtonInput`, `checkScanTimeout`, `checkKeepAlive`, in this order. -/
def loop (i : LoopInput) (s : State) : State × List Event :=
  let r1 := handleQRCodeScan i.scan s
  let r2 := handleButtonInput i.buttons r1.1
  let r3 := checkScanTimeout i.millisTimeout r2.1
  let r4 := checkKeepAlive i.keepAlive r3.1
  (r4.1, r1.2 ++ r2.2 ++ r3.2 ++ r4.2)

/-- Consecutive passes of `loop()`, first input first: the final state and all events. -/
def runLoop : List LoopInput → State → State × List Event
  | [], s => (s, [])
  | i :: rest, s =>
    let r := loop i s
    let r2 := runLoop rest r.1
    (r2.1, r.2 ++ r2.2)

/-- The state when `loop()` first runs: the initialisers of lines 84-87, 300 and 522, the
configured line and operation numbers, `lastCommunicationTime` as set at the end of `setup`, and
no `setDecodeTrigger` call yet. -/
def initialState (lineNum opNum : List Nat) (millisSetup : Nat) : State :=
  { LINE_NUM := lineNum, OP_NUM := opNum, currentStatus := [], scanStartTime := 0,
    lastCommunicationTime := millisSetup, sequenceNumber := 0, sid := 0x00, keepAliveSid := 0x80,
    decodeTrigger := 0 }

/-- The arguments of the `qrcode.setDecodeTrigger` calls of a trace, in order. -/
def triggerCalls : List Event → List Nat
  | [] => []
  | Event.setDecodeTrigger v :: rest => v :: triggerCalls rest
  | _ :: rest => triggerCalls rest

/-- The number of `setDecodeTrigger(0)` calls of a trace. -/
def disarmCount (trace : List Event) : Nat := (triggerCalls trace).count 0

/-- An input of `loop()` with no decode ready and no button pressed. -/
def LoopInput.quiet (i : LoopInput) : Prop :=
  i.scan.decodeReadyStatus ≠ 1 ∧ i.buttons.btnA = false ∧ i.buttons.btnB = false ∧
    i.buttons.btnC = false

/-! ## The claims' vocabulary and the inputs of the scenarios -/

/-- The written string in the words of the specification: line id, operation id, status,
scanned payload and the two-digit zero-padded decimal sequence number, in this order. -/
def assembled (lineId opId status payload : List Nat) (seq : Nat) : List Nat :=
  lineId ++ opId ++ status ++ payload ++ [48 + seq / 10, 48 + seq % 10]

/-- A 14-byte FINS response: header echoing `sid`, command `01 02`, end code `main sub`. -/
def replyDatagram (sid main sub : Nat) : List Nat :=
  [0xC0, 0x00, 0x02, 0x00, PC_NODE_ADDRESS, 0x00, 0x00, PLC_NODE_ADDRESS, 0x00, sid, 0x01, 0x02,
    main, sub]

/-- A pass of the wait loop that receives `replyDatagram sid main sub` in full. -/
def replyPoll (sid main sub : Nat) : Poll :=
  { packetSize := 14, len := 14, response := replyDatagram sid main sub }

/-- A pass of the wait loop with nothing pending (`parsePacket` returns 0). -/
def emptyPoll : Poll := { packetSize := 0, len := 0, response := [] }

/-- An attempt whose send succeeds at time `millis` and whose wait loop sees `polls`. -/
def sentAttempt (millis : Nat) (polls : List Poll) : AttemptInput :=
  { drained := 0, endPacket := 1, millis := millis, polls := polls }

/-- The SID bytes (offset 9) of the datagrams sent in a trace, in order. -/
def sentSids (trace : List Event) : List Nat :=
  (sentPackets trace).map (fun p => byteAt (datagram p.1 p.2) 9)

/-- One call `sendQRCodeData(data, status)` with the link connected, and what it reads. -/
structure WriteCall where
  data : List Nat
  status : List Nat
  input : Nat → AttemptInput

/-- The state after consecutive calls of `sendQRCodeData` with the link connected. -/
def consecutiveWrites : List WriteCall → State → State
  | [], s => s
  | c :: rest, s => consecutiveWrites rest (sendQRCodeData true c.data c.status c.input s).1

/-- Scenario S1: the first attempt is answered with end code `00 00`. -/
def scenarioS1 : WriteCall :=
  { data := ascii "DK37173JB352101 00", status := ascii "01",
    input := fun _ => sentAttempt 5000 [replyPoll 0 0x00 0x00] }

/-- A late reply (scenario S4 with the end codes exchanged): attempt 1 (SID 0) gets no answer
in time; during the wait of attempt 2 (SID 1) the reply to attempt 1, SID 0 and end code
`00 00`, arrives first and the reply to attempt 2, SID 1 and end code `11 01`, after it. -/
def lateReplyInput (attempt : Nat) : AttemptInput :=
  if attempt = 1 then sentAttempt 1000 [emptyPoll, emptyPoll]
  else if attempt = 2 then sentAttempt 5200 [replyPoll 0 0x00 0x00, replyPoll 1 0x11 0x01]
  else sentAttempt 9400 [replyPoll 2 0x11 0x01]

/-- The same run without the late reply: attempt 2 only sees the reply carrying its own SID. -/
def currentReplyInput (attempt : Nat) : AttemptInput :=
  if attempt = 1 then sentAttempt 1000 [emptyPoll, emptyPoll]
  else if attempt = 2 then sentAttempt 5200 [replyPoll 1 0x11 0x01]
  else sentAttempt 9400 [replyPoll 2 0x11 0x01]

/-- Scenario S2: attempt 1 is answered with end code `21 02`, attempt 2 with `00 00`. -/
def scenarioS2Input (sid : Nat) (attempt : Nat) : AttemptInput :=
  if attempt = 1 then sentAttempt 1000 [emptyPoll, replyPoll sid 0x21 0x02]
  else sentAttempt 3100 [emptyPoll, replyPoll ((sid + 1) % 256) 0x00 0x00]

/-- An input of `loop()` with no button pressed. -/
def LoopInput.noButton (i : LoopInput) : Prop :=
  i.buttons.btnA = false ∧ i.buttons.btnB = false ∧ i.buttons.btnC = false

/-- A keep-alive check at time `millis` with the link up. -/
def keepAliveAt (millis : Nat) : KeepAliveInput :=
  { wifiConnected := true, millis := millis, wifiConnectedAtSend := true, millisAtSend := millis }

/-- A pass of `loop()` at time `millis` in which only button A is pressed. -/
def pressA (millis : Nat) : LoopInput :=
  { scan := { decodeReadyStatus := 0, decodeData := [], wifiConnected := true,
              attempts := fun _ => sentAttempt millis [] },
    buttons := { btnA := true, btnB := false, btnC := false, millisA := millis, millisC := 0 },
    millisTimeout := millis, keepAlive := keepAliveAt millis }

/-- A pass of `loop()` at time `millis` in which the scanner has decoded `payload`, no button is
pressed and the PLC answers the first attempt, sent with SID `sid`, with end code `00 00`. -/
def decodeReady (millis : Nat) (payload : List Nat) (sid : Nat) : LoopInput :=
  { scan := { decodeReadyStatus := 1, decodeData := payload, wifiConnected := true,
              attempts := fun _ => sentAttempt millis [replyPoll sid 0x00 0x00] },
    buttons := { btnA := false, btnB := false, btnC := false, millisA := 0, millisC := 0 },
    millisTimeout := millis, keepAlive := keepAliveAt millis }

/-- A pass of `loop()` at time `millis` with no decode ready and no button pressed. -/
def idlePass (millis : Nat) : LoopInput :=
  { scan := { decodeReadyStatus := 0, decodeData := [], wifiConnected := true,
              attempts := fun _ => sentAttempt millis [] },
    buttons := { btnA := false, btnB := false, btnC := false, millisA := 0, millisC := 0 },
    millisTimeout := millis, keepAlive := keepAliveAt millis }

/-- A decode of `n` bytes, all the letter A. -/
def decodeOfLength (n : Nat) : List Nat := List.replicate n 0x41

/-- The `udp.write` calls made by `handleQRCodeScan` for a decode of `n` letters A, after
button A selected status "01", with line "01" and operation "10" and the PLC answering the
first attempt with `00 00`: for each call the size handed to `udp.write` and the number of
bytes stored into `finsPacket`. -/
def decodeWriteSizes (n : Nat) : List (Nat × Nat) :=
  (sentPackets (handleQRCodeScan (decodeReady 3000 (decodeOfLength n) 0).scan
    (loop (pressA 1000) (initialState (ascii "01") (ascii "10") 0)).1).2).map
      (fun p => (p.2, p.1.length))

/-! ## Framing lemmas -/

theorem packData_length (wd : List Nat) : (packData wd).length = 2 * wordCount wd.length := by
  induction wd using packData.induct with
  | case1 => simp [packData, wordCount]
  | case2 a => simp [packData, wordCount]
  | case3 a b rest ih =>
    simp only [packData, List.length_cons, ih, wordCount]
    omega

theorem packData_eq (wd : List Nat) :
    packData wd = wd ++ (if wd.length % 2 = 1 then [0x00] else []) := by
  induction wd using packData.induct with
  | case1 => simp [packData]
  | case2 a => simp [packData]
  | case3 a b rest ih =>
    have h : (rest.length + 1 + 1) % 2 = rest.length % 2 := by omega
    simp only [packData, List.length_cons, ih, h, List.cons_append]

theorem finsPacket_length (sid : Nat) (wd : List Nat) :
    (finsPacket sid wd).length = 18 + 2 * wordCount wd.length := by
  simp [finsPacket, finsHeader, finsCommand, writeParams, packData_length]
  omega

theorem datagram_finsPacket (sid : Nat) (wd : List Nat) :
    datagram (finsPacket sid wd) (packetSize (wordCount wd.length)) = finsPacket sid wd := by
  have hlen : packetSize (wordCount wd.length) = (finsPacket sid wd).length := by
    rw [finsPacket_length]; unfold packetSize; omega
  rw [datagram, hlen, List.take_length]

theorem sprintf02d_two_digits (n : Nat) (h : n ≤ 99) :
    sprintf02d n = [48 + n / 10, 48 + n % 10] := by
  have hn : n < 100 := by omega
  clear h
  interval_cases n <;> rfl

/-! ## Traces of `sendQRCodeData` -/

theorem sentPackets_append (t u : List Event) :
    sentPackets (t ++ u) = sentPackets t ++ sentPackets u := by
  induction t with
  | nil => rfl
  | cons e t ih => cases e <;> simp [sentPackets, ih]

theorem sentPackets_replicate_flush (n : Nat) :
    sentPackets (List.replicate n Event.udpFlush) = [] := by
  induction n with
  | zero => rfl
  | succ n ih => simp [List.replicate_succ, sentPackets, ih]

theorem sentPackets_retryPause (attempt : Nat) : sentPackets (retryPause attempt) = [] := by
  unfold retryPause
  split_ifs <;> simp [sentPackets]

theorem sentPackets_responseWait (attempt : Nat) (polls : List Poll) :
    sentPackets (responseWait attempt polls).1 = [] := by
  induction polls with
  | nil => rfl
  | cons p rest ih =>
    simp only [responseWait]
    split_ifs
    · simp [sentPackets]
    · simp [sentPackets, sentPackets_retryPause]
    · simpa [sentPackets] using ih

/-- The SID counter after `k` increments of the `uint8_t`. -/
theorem sidAfter_eq (sid k : Nat) (h : sid < 256) :
    (fun x => (x + 1) % 256)^[k] sid = (sid + k) % 256 := by
  induction k generalizing sid with
  | zero => simp [Nat.mod_eq_of_lt h]
  | succ k ih =>
    rw [Function.iterate_succ_apply, ih _ (Nat.mod_lt _ (by norm_num))]
    omega

/-- The packets written by the retry loop: one per attempt made, all with the same data and
size, the SID byte being the counter's value after 0, 1, 2, ... increments. -/
theorem sentPackets_attemptLoop (data status : List Nat) (seq : Nat) (input : Nat → AttemptInput)
    (remaining attempt : Nat) (s : State) :
    ∃ m, m ≤ remaining ∧ (0 < remaining → 0 < m) ∧
      sentPackets (attemptLoop data status seq input remaining attempt s).2.1 =
        (List.range m).map (fun k =>
          (finsPacket ((fun x => (x + 1) % 256)^[k] s.sid)
              (writeData s.LINE_NUM s.OP_NUM status data seq),
            packetSize (wordCount (writeData s.LINE_NUM s.OP_NUM status data seq).length))) := by
  induction remaining generalizing attempt s with
  | zero => exact ⟨0, le_refl _, fun h => h, rfl⟩
  | succ n ih =>
    simp only [attemptLoop]
    split_ifs with hsend hok
    · obtain ⟨m, hm, _, hrec⟩ := ih (attempt + 1) { s with sid := (s.sid + 1) % 256 }
      refine ⟨m + 1, by omega, fun _ => by omega, ?_⟩
      simp [sentPackets_append, sentPackets_replicate_flush, sentPackets_retryPause, hrec,
        sentPackets, List.range_succ_eq_map, Function.comp_def]
    · refine ⟨1, by omega, fun _ => by omega, ?_⟩
      simp [sentPackets_append, sentPackets_replicate_flush, sentPackets_responseWait,
        sentPackets, List.range_succ_eq_map]
    · obtain ⟨m, hm, _, hrec⟩ := ih (attempt + 1)
        { s with sid := (s.sid + 1) % 256, lastCommunicationTime := (input attempt).millis }
      refine ⟨m + 1, by omega, fun _ => by omega, ?_⟩
      simp [sentPackets_append, sentPackets_replicate_flush, sentPackets_retryPause, hrec,
        sentPackets_responseWait, sentPackets, List.range_succ_eq_map, Function.comp_def]

theorem sentPackets_sendQRCodeData (data status : List Nat) (input : Nat → AttemptInput)
    (s : State) :
    ∃ m, m ≤ UDP_RETRY_MAX ∧ 0 < m ∧
      sentPackets (sendQRCodeData true data status input s).2 =
        (List.range m).map (fun k =>
          (finsPacket ((fun x => (x + 1) % 256)^[k] s.sid)
              (writeData s.LINE_NUM s.OP_NUM status data (nextSequence s.sequenceNumber)),
            packetSize (wordCount
              (writeData s.LINE_NUM s.OP_NUM status data (nextSequence s.sequenceNumber)).length))) := by
  obtain ⟨m, hm, hpos, hrec⟩ := sentPackets_attemptLoop data status
    (nextSequence s.sequenceNumber) input UDP_RETRY_MAX 1
    { s with sequenceNumber := nextSequence s.sequenceNumber }
  refine ⟨m, hm, hpos (by decide), ?_⟩
  simp only [sendQRCodeData, Bool.not_true, Bool.false_eq_true, if_false, sentPackets_append, hrec]
  split_ifs <;> simp [sentPackets]

theorem cString_eq_self (p : List Nat) (h : 0 ∉ p) : cString p = p := by
  unfold cString
  rw [List.takeWhile_eq_self_iff]
  intro x hx
  simp only [bne_iff_ne, ne_eq]
  rintro rfl
  exact h hx

theorem nextSequence_le (n : Nat) : nextSequence n ≤ 99 := by
  unfold nextSequence
  simp only
  split_ifs <;> omega

theorem writeData_eq_assembled (lineNum opNum status data : List Nat) (seq : Nat)
    (hstatus : 0 ∉ status) (hdata : 0 ∉ data) (hseq : seq ≤ 99) :
    writeData lineNum opNum status data seq = assembled lineNum opNum status data seq := by
  simp [writeData, assembled, cString_eq_self, hstatus, hdata, sprintf02d_two_digits seq hseq]

theorem ceil_half (L : Nat) : ⌈(L : ℚ) / 2⌉₊ = (L + 1) / 2 := by
  have h2 : L ≤ 2 * ((L + 1) / 2) := by omega
  have h3 : 2 * ((L + 1) / 2) ≤ L + 1 := by omega
  apply le_antisymm
  · rw [Nat.ceil_le]
    have : (L : ℚ) ≤ 2 * (((L + 1) / 2 : ℕ) : ℚ) := by exact_mod_cast h2
    linarith
  · by_contra hlt
    push_neg at hlt
    have hle := Nat.le_ceil ((L : ℚ) / 2)
    have h4 : ((⌈(L : ℚ) / 2⌉₊ : ℕ) : ℚ) + 1 ≤ (((L + 1) / 2 : ℕ) : ℚ) := by exact_mod_cast hlt
    have h3q : 2 * (((L + 1) / 2 : ℕ) : ℚ) ≤ (L : ℚ) + 1 := by exact_mod_cast h3
    linarith

theorem wordCount_field (sid : Nat) (wd : List Nat) (h : wordCount wd.length < 65536) :
    256 * byteAt (finsPacket sid wd) 16 + byteAt (finsPacket sid wd) 17 = wordCount wd.length := by
  have h1 : ∀ w : Nat, w &&& 0xFF = w % 256 := fun w => Nat.and_pow_two_sub_one_eq_mod w 8
  have h2 : ∀ w : Nat, w >>> 8 = w / 256 := fun w => Nat.shiftRight_eq_div_pow w 8
  simp only [finsPacket, finsHeader, finsCommand, writeParams, byteAt, List.cons_append,
    List.nil_append, List.getD_cons_succ, List.getD_cons_zero, h1, h2]
  omega

theorem dataRegion_finsPacket (sid : Nat) (wd : List Nat) :
    (datagram (finsPacket sid wd) (packetSize (wordCount wd.length))).drop 18 =
      wd ++ (if wd.length % 2 = 1 then [0x00] else []) := by
  have hlen : packetSize (wordCount wd.length) = (finsPacket sid wd).length := by
    rw [finsPacket_length]; unfold packetSize; omega
  rw [datagram, hlen, List.take_length, ← packData_eq]
  simp [finsPacket, finsHeader, finsCommand, writeParams]

/-! ## Claims on the framing -/

/-- C2: when the assembled string (line id, operation id, status, payload, two-digit sequence)
has length `L <= 494`, every datagram built by `sendQRCodeData` (there is at least one) carries
at offsets 16-17 the big-endian value `ceil(L / 2)`, the size handed to `udp.write` is
`18 + 2 * ceil(L / 2)`, and that size is the number of bytes stored into the packet buffer
(the datagram sent is exactly these bytes), which is within the 512 bytes of the buffer. -/
theorem C2_word_count_and_size (data status : List Nat) (input : Nat → AttemptInput) (s : State)
    (hstatus : 0 ∉ status) (hdata : 0 ∉ data)
    (hL : (assembled s.LINE_NUM s.OP_NUM status data (nextSequence s.sequenceNumber)).length
      ≤ 494) :
    sentPackets (sendQRCodeData true data status input s).2 ≠ [] ∧
    ∀ p ∈ sentPackets (sendQRCodeData true data status input s).2,
      256 * byteAt p.1 16 + byteAt p.1 17 =
        ⌈((assembled s.LINE_NUM s.OP_NUM status data
          (nextSequence s.sequenceNumber)).length : ℚ) / 2⌉₊ ∧
      p.2 = 18 + 2 * ⌈((assembled s.LINE_NUM s.OP_NUM status data
          (nextSequence s.sequenceNumber)).length : ℚ) / 2⌉₊ ∧
      p.1.length = p.2 ∧ datagram p.1 p.2 = p.1 ∧
      p.1.length ≤ FINS_PACKET_CAPACITY := by
  obtain ⟨m, _, hpos, hsent⟩ := sentPackets_sendQRCodeData data status input s
  rw [hsent, writeData_eq_assembled _ _ _ _ _ hstatus hdata (nextSequence_le _), ceil_half]
  constructor
  · intro h
    have hlen := congrArg List.length h
    simp at hlen
    omega
  · intro p hp
    simp only [List.mem_map, List.mem_range] at hp
    obtain ⟨k, _, rfl⟩ := hp
    have hw : wordCount (assembled s.LINE_NUM s.OP_NUM status data
        (nextSequence s.sequenceNumber)).length < 65536 := by
      unfold wordCount; omega
    refine ⟨?_, ?_, ?_, ?_, ?_⟩
    · rw [wordCount_field _ _ hw]; rfl
    · simp only [packetSize, wordCount]; omega
    · rw [finsPacket_length]; simp only [packetSize, wordCount]; omega
    · exact datagram_finsPacket _ _
    · rw [finsPacket_length]; simp only [FINS_PACKET_CAPACITY, wordCount]; omega

/-- C2 at scenario S1 (line "01", operation "10", status "01", payload "DK37173JB352101 00",
sequence counter 0, SID counter 0, the PLC answering `00 00`). -/
theorem C2_word_count_and_size_witness :
    sentPackets (sendQRCodeData true (ascii "DK37173JB352101 00") (ascii "01")
        (fun _ => sentAttempt 5000 [replyPoll 0 0 0])
        (initialState (ascii "01") (ascii "10") 0)).2 ≠ [] ∧
    ∀ p ∈ sentPackets (sendQRCodeData true (ascii "DK37173JB352101 00") (ascii "01")
        (fun _ => sentAttempt 5000 [replyPoll 0 0 0])
        (initialState (ascii "01") (ascii "10") 0)).2,
      256 * byteAt p.1 16 + byteAt p.1 17 = ⌈((26 : ℕ) : ℚ) / 2⌉₊ ∧
      p.2 = 18 + 2 * ⌈((26 : ℕ) : ℚ) / 2⌉₊ ∧
      p.1.length = p.2 ∧ datagram p.1 p.2 = p.1 ∧
      p.1.length ≤ FINS_PACKET_CAPACITY :=
  C2_word_count_and_size (ascii "DK37173JB352101 00") (ascii "01")
    (fun _ => sentAttempt 5000 [replyPoll 0 0 0]) (initialState (ascii "01") (ascii "10") 0)
    (by decide) (by decide) (by decide)

/-- C3: while the packet fits the 512-byte `finsPacket` (assembled string of at most 494
bytes, the bound of C2), the data region (offset 18 to the end) of every datagram built by
`sendQRCodeData` (there is at least one) is line id, operation id, status, payload and the
two-digit zero-padded decimal sequence, in this order, followed by exactly one `0x00` when that
string has odd length and by nothing when it is even; the region has even length and every byte
stored lies within the buffer. -/
theorem C3_data_region (data status : List Nat) (input : Nat → AttemptInput) (s : State)
    (hstatus : 0 ∉ status) (hdata : 0 ∉ data)
    (hL : (assembled s.LINE_NUM s.OP_NUM status data (nextSequence s.sequenceNumber)).length
      ≤ 494) :
    sentPackets (sendQRCodeData true data status input s).2 ≠ [] ∧
    ∀ p ∈ sentPackets (sendQRCodeData true data status input s).2,
      (datagram p.1 p.2).drop 18 =
        assembled s.LINE_NUM s.OP_NUM status data (nextSequence s.sequenceNumber) ++
          (if (assembled s.LINE_NUM s.OP_NUM status data
              (nextSequence s.sequenceNumber)).length % 2 = 1 then [0x00] else []) ∧
      ((datagram p.1 p.2).drop 18).length % 2 = 0 ∧
      p.1.length ≤ FINS_PACKET_CAPACITY := by
  obtain ⟨m, _, hpos, hsent⟩ := sentPackets_sendQRCodeData data status input s
  rw [hsent, writeData_eq_assembled _ _ _ _ _ hstatus hdata (nextSequence_le _)]
  constructor
  · intro h
    have hlen := congrArg List.length h
    simp at hlen
    omega
  · intro p hp
    simp only [List.mem_map, List.mem_range] at hp
    obtain ⟨k, _, rfl⟩ := hp
    rw [dataRegion_finsPacket]
    refine ⟨rfl, ?_, ?_⟩
    · split_ifs with hodd
      · simp only [List.length_append, List.length_singleton]; omega
      · simp only [List.append_nil]; omega
    · rw [finsPacket_length]; simp only [FINS_PACKET_CAPACITY, wordCount]; omega

/-- C3 at scenario S1: the one datagram sent has the 26 data bytes of
"011001DK37173JB352101 0001", no padding, word count 13 and 44 bytes in all. -/
theorem C3_data_region_witness :
    (assembled (ascii "01") (ascii "10") (ascii "01") (ascii "DK37173JB352101 00") 1).length
      ≤ 494 ∧
    sentPackets (sendQRCodeData true (ascii "DK37173JB352101 00") (ascii "01")
        (fun _ => sentAttempt 5000 [replyPoll 0 0 0])
        (initialState (ascii "01") (ascii "10") 0)).2 =
      [(finsHeader 0 ++ finsCommand ++ [0x82, 0x0F, 0xA0, 0x00, 0x00, 13] ++
          ascii "011001DK37173JB352101 0001", 44)] ∧
    ∀ p ∈ sentPackets (sendQRCodeData true (ascii "DK37173JB352101 00") (ascii "01")
        (fun _ => sentAttempt 5000 [replyPoll 0 0 0])
        (initialState (ascii "01") (ascii "10") 0)).2,
      (datagram p.1 p.2).drop 18 = ascii "011001DK37173JB352101 0001" ∧
      ((datagram p.1 p.2).drop 18).length % 2 = 0 ∧
      p.1.length ≤ FINS_PACKET_CAPACITY :=
  ⟨by decide, by decide,
    (C3_data_region (ascii "DK37173JB352101 00") (ascii "01")
      (fun _ => sentAttempt 5000 [replyPoll 0 0 0]) (initialState (ascii "01") (ascii "10") 0)
      (by decide) (by decide) (by decide)).2⟩

/-! ## Claims on the retry loop -/

theorem sid_byte_finsPacket (sid : Nat) (wd : List Nat) :
    byteAt (datagram (finsPacket sid wd) (packetSize (wordCount wd.length))) 9 = sid := by
  rw [datagram_finsPacket]
  simp [finsPacket, finsHeader, byteAt]

theorem sentSids_sendQRCodeData (data status : List Nat) (input : Nat → AttemptInput)
    (s : State) (hsid : s.sid < 256) :
    ∃ m, m ≤ UDP_RETRY_MAX ∧ 0 < m ∧
      sentSids (sendQRCodeData true data status input s).2 =
        (List.range m).map (fun k => (s.sid + k) % 256) := by
  obtain ⟨m, hm, hpos, hsent⟩ := sentPackets_sendQRCodeData data status input s
  refine ⟨m, hm, hpos, ?_⟩
  rw [sentSids, hsent, List.map_map]
  apply List.map_congr_left
  intro k _
  simp only [Function.comp_apply, sid_byte_finsPacket]
  exact sidAfter_eq _ _ hsid

theorem byteAt_set_ne (buf : List Nat) (i j v : Nat) (h : i ≠ j) :
    byteAt (buf.set i v) j = byteAt buf j := by
  simp [byteAt, List.getD_eq_getElem?_getD, List.getElem?_set_ne h]

/-- The state components the retry loop leaves alone. -/
theorem attemptLoop_frame (data status : List Nat) (seq : Nat) (input : Nat → AttemptInput)
    (remaining attempt : Nat) (s : State) :
    (attemptLoop data status seq input remaining attempt s).1.LINE_NUM = s.LINE_NUM ∧
    (attemptLoop data status seq input remaining attempt s).1.OP_NUM = s.OP_NUM ∧
    (attemptLoop data status seq input remaining attempt s).1.currentStatus = s.currentStatus ∧
    (attemptLoop data status seq input remaining attempt s).1.scanStartTime = s.scanStartTime ∧
    (attemptLoop data status seq input remaining attempt s).1.sequenceNumber = s.sequenceNumber ∧
    (attemptLoop data status seq input remaining attempt s).1.keepAliveSid = s.keepAliveSid ∧
    (attemptLoop data status seq input remaining attempt s).1.decodeTrigger = s.decodeTrigger := by
  induction remaining generalizing attempt s with
  | zero => simp [attemptLoop]
  | succ n ih =>
    simp only [attemptLoop]
    split_ifs
    · simpa using ih (attempt + 1) { s with sid := (s.sid + 1) % 256 }
    · simp
    · simpa using ih (attempt + 1)
        { s with sid := (s.sid + 1) % 256, lastCommunicationTime := (input attempt).millis }

theorem sendQRCodeData_frame (data status : List Nat) (input : Nat → AttemptInput) (s : State) :
    (sendQRCodeData true data status input s).1.LINE_NUM = s.LINE_NUM ∧
    (sendQRCodeData true data status input s).1.OP_NUM = s.OP_NUM ∧
    (sendQRCodeData true data status input s).1.currentStatus = s.currentStatus ∧
    (sendQRCodeData true data status input s).1.scanStartTime = s.scanStartTime ∧
    (sendQRCodeData true data status input s).1.sequenceNumber =
      nextSequence s.sequenceNumber ∧
    (sendQRCodeData true data status input s).1.keepAliveSid = s.keepAliveSid ∧
    (sendQRCodeData true data status input s).1.decodeTrigger = s.decodeTrigger := by
  simpa [sendQRCodeData] using attemptLoop_frame data status (nextSequence s.sequenceNumber)
    input UDP_RETRY_MAX 1 { s with sequenceNumber := nextSequence s.sequenceNumber }

theorem nextSequence_eq_mod (n : Nat) (h : n ≤ 99) : nextSequence n = (n + 1) % 100 := by
  unfold nextSequence
  simp only
  split_ifs <;> omega

theorem consecutiveWrites_sequenceNumber (calls : List WriteCall) (s : State)
    (h : s.sequenceNumber ≤ 99) :
    (consecutiveWrites calls s).sequenceNumber = (s.sequenceNumber + calls.length) % 100 := by
  induction calls generalizing s with
  | nil => simp [consecutiveWrites]; omega
  | cons c rest ih =>
    simp only [consecutiveWrites, List.length_cons]
    rw [ih _ (by rw [(sendQRCodeData_frame _ _ _ _).2.2.2.2.1]; exact nextSequence_le _),
      (sendQRCodeData_frame _ _ _ _).2.2.2.2.1, nextSequence_eq_mod _ h]
    omega

/-- C1 fails on the code: in a run where attempt 2 (SID 1) first receives the late reply to
attempt 1 (SID 0, end code `00 00`) and then its own reply (SID 1, end code `11 01`), the late
reply decides: the write is reported as succeeded after two sends and the reply with the
current SID is never looked at; without the late reply the same attempt is a PLC error. -/
theorem C1_stale_reply_counterexample :
    sentSids (sendQRCodeData true (ascii "X") (ascii "02") lateReplyInput
      (initialState (ascii "01") (ascii "10") 0)).2 = [0, 1] ∧
    byteAt (replyPoll 0 0x00 0x00).response 9 ≠ 1 ∧
    byteAt (replyPoll 1 0x11 0x01).response 9 = 1 ∧
    Event.println Msg.writeSucceeded ∈ (sendQRCodeData true (ascii "X") (ascii "02")
      lateReplyInput (initialState (ascii "01") (ascii "10") 0)).2 ∧
    Event.println (Msg.plcError 0x11 0x01) ∉ (sendQRCodeData true (ascii "X") (ascii "02")
      lateReplyInput (initialState (ascii "01") (ascii "10") 0)).2 ∧
    (responseWait 2 (lateReplyInput 2).polls).2 = true ∧
    (responseWait 2 (currentReplyInput 2).polls).2 = false ∧
    Event.println Msg.writeSucceeded ∉ (sendQRCodeData true (ascii "X") (ascii "02")
      currentReplyInput (initialState (ascii "01") (ascii "10") 0)).2 := by
  decide

/-- C1 as amended: in the response wait of an attempt, passes without a packet of at least 14
bytes are skipped (each ends with `delay(10)`), and the first packet of at least 14 bytes decides
the attempt by its end code at offsets 12-13 alone: the result does not depend on the byte at
offset 9 (the echoed SID) nor on anything received after it. -/
theorem C1_first_reply_decides (attempt : Nat) (skipped : List Poll) (p : Poll)
    (rest : List Poll)
    (hskip : ∀ q ∈ skipped, ¬ (14 ≤ q.packetSize ∧ 14 ≤ q.len))
    (hp : 14 ≤ p.packetSize ∧ 14 ≤ p.len) :
    (responseWait attempt (skipped ++ p :: rest)).2 =
      decide (byteAt p.response 12 = 0x00 ∧ byteAt p.response 13 = 0x00) ∧
    responseWait attempt (skipped ++ p :: rest) = responseWait attempt (skipped ++ [p]) ∧
    ∀ v, responseWait attempt (skipped ++ { p with response := p.response.set 9 v } :: rest) =
      responseWait attempt (skipped ++ p :: rest) := by
  induction skipped with
  | nil =>
    simp only [List.nil_append, responseWait, hp, and_self, if_true]
    refine ⟨?_, trivial, ?_⟩
    · split_ifs with h <;> simp [h]
    · intro v
      rw [byteAt_set_ne _ _ _ _ (by decide), byteAt_set_ne _ _ _ _ (by decide)]
  | cons q skipped ih =>
    have hq := hskip q (List.mem_cons_self _ _)
    have ih2 := ih (fun x hx => hskip x (List.mem_cons_of_mem _ hx))
    simp only [List.cons_append, responseWait, hq, if_false]
    exact ⟨ih2.1, congrArg (fun r => (Event.delay 10 :: r.1, r.2)) ih2.2.1,
      fun v => congrArg (fun r => (Event.delay 10 :: r.1, r.2)) (ih2.2.2 v)⟩

/-- C1 as amended, at the late reply of `lateReplyInput` after one empty pass. -/
theorem C1_first_reply_decides_witness :
    (responseWait 2 ([emptyPoll] ++ replyPoll 0 0x00 0x00 :: [replyPoll 1 0x11 0x01])).2 =
      decide (byteAt (replyPoll 0 0x00 0x00).response 12 = 0x00 ∧
        byteAt (replyPoll 0 0x00 0x00).response 13 = 0x00) ∧
    responseWait 2 ([emptyPoll] ++ replyPoll 0 0x00 0x00 :: [replyPoll 1 0x11 0x01]) =
      responseWait 2 ([emptyPoll] ++ [replyPoll 0 0x00 0x00]) ∧
    ∀ v, responseWait 2 ([emptyPoll] ++
        { replyPoll 0 0x00 0x00 with response := (replyPoll 0 0x00 0x00).response.set 9 v } ::
          [replyPoll 1 0x11 0x01]) =
      responseWait 2 ([emptyPoll] ++ replyPoll 0 0x00 0x00 :: [replyPoll 1 0x11 0x01]) :=
  C1_first_reply_decides 2 [emptyPoll] (replyPoll 0 0x00 0x00) [replyPoll 1 0x11 0x01]
    (by decide) (by decide)

/-- C4: starting from `sequenceNumber = 0`, the write that follows any number `n` of earlier
connected writes finds the counter at `n mod 100`, increments it exactly once to
`(previous + 1) mod 100 = (n + 1) mod 100`, which stays within 0..99, and every datagram of
that write (there is at least one) carries as data the line id, operation id, status and
payload followed by the two-digit decimal of the new value: the suffixes run 01, 02, ..., 99,
00, 01, ... -/
theorem C4_sequence_cycle (calls : List WriteCall) (c : WriteCall) (s0 : State)
    (h0 : s0.sequenceNumber = 0) :
    (consecutiveWrites calls s0).sequenceNumber = calls.length % 100 ∧
    (sendQRCodeData true c.data c.status c.input (consecutiveWrites calls s0)).1.sequenceNumber =
      ((consecutiveWrites calls s0).sequenceNumber + 1) % 100 ∧
    (sendQRCodeData true c.data c.status c.input (consecutiveWrites calls s0)).1.sequenceNumber =
      (calls.length + 1) % 100 ∧
    (sendQRCodeData true c.data c.status c.input (consecutiveWrites calls s0)).1.sequenceNumber
      ≤ 99 ∧
    sentPackets (sendQRCodeData true c.data c.status c.input (consecutiveWrites calls s0)).2
      ≠ [] ∧
    ∀ p ∈ sentPackets
        (sendQRCodeData true c.data c.status c.input (consecutiveWrites calls s0)).2,
      (datagram p.1 p.2).drop 18 =
        packData (assembled (consecutiveWrites calls s0).LINE_NUM
          (consecutiveWrites calls s0).OP_NUM (cString c.status) (cString c.data)
          ((calls.length + 1) % 100)) := by
  have hseq : (consecutiveWrites calls s0).sequenceNumber = calls.length % 100 := by
    rw [consecutiveWrites_sequenceNumber calls s0 (by omega), h0, Nat.zero_add]
  have hle : (consecutiveWrites calls s0).sequenceNumber ≤ 99 := by omega
  have hnext : nextSequence (consecutiveWrites calls s0).sequenceNumber =
      (calls.length + 1) % 100 := by
    rw [nextSequence_eq_mod _ hle, hseq]; omega
  have hframe := (sendQRCodeData_frame c.data c.status c.input
    (consecutiveWrites calls s0)).2.2.2.2.1
  obtain ⟨m, _, hpos, hsent⟩ := sentPackets_sendQRCodeData c.data c.status c.input
    (consecutiveWrites calls s0)
  refine ⟨hseq, ?_, ?_, ?_, ?_, ?_⟩
  · rw [hframe, nextSequence_eq_mod _ hle]
  · rw [hframe, hnext]
  · rw [hframe]; exact nextSequence_le _
  · rw [hsent]
    intro h
    have hlen := congrArg List.length h
    simp at hlen
    omega
  · intro p hp
    rw [hsent] at hp
    simp only [List.mem_map, List.mem_range] at hp
    obtain ⟨k, _, rfl⟩ := hp
    rw [dataRegion_finsPacket, ← packData_eq, hnext]
    have hd : sprintf02d ((calls.length + 1) % 100) =
        [48 + (calls.length + 1) % 100 / 10, 48 + (calls.length + 1) % 100 % 10] :=
      sprintf02d_two_digits _ (by omega)
    simp [writeData, assembled, hd]

/-- C4 at the second write of a run (scenario S2 after scenario S1): the counter goes from 1 to
2 and the data of both attempts end in "02". -/
theorem C4_sequence_cycle_witness :
    (consecutiveWrites [scenarioS1] (initialState (ascii "01") (ascii "10") 0)).sequenceNumber =
      1 ∧
    (sendQRCodeData true (ascii "X") (ascii "02") (scenarioS2Input 1)
      (consecutiveWrites [scenarioS1]
        (initialState (ascii "01") (ascii "10") 0))).1.sequenceNumber = 2 ∧
    (sentPackets (sendQRCodeData true (ascii "X") (ascii "02") (scenarioS2Input 1)
      (consecutiveWrites [scenarioS1] (initialState (ascii "01") (ascii "10") 0))).2).map
        (fun p => (datagram p.1 p.2).drop 18) = [ascii "011002X02\x00", ascii "011002X02\x00"] :=
  have h := C4_sequence_cycle [scenarioS1]
    { data := ascii "X", status := ascii "02", input := scenarioS2Input 1 }
    (initialState (ascii "01") (ascii "10") 0) rfl
  ⟨h.1, h.2.2.1, by decide⟩

/-- C5: for every value of the 8-bit SID counter and every behaviour of the environment, the
SID bytes (offset 9) of the datagrams of one `sendQRCodeData` call are, for some number
`1 <= m <= UDP_RETRY_MAX` of attempts, `sid, sid + 1, ..., sid + m - 1` modulo 256: each is the
previous one plus 1 modulo 256, and they are pairwise distinct. -/
theorem C5_sids_distinct (data status : List Nat) (input : Nat → AttemptInput) (s : State)
    (hsid : s.sid < 256) :
    ∃ m, 0 < m ∧ m ≤ UDP_RETRY_MAX ∧
      sentSids (sendQRCodeData true data status input s).2 =
        (List.range m).map (fun k => (s.sid + k) % 256) ∧
      (∀ k, k + 1 < m →
        (sentSids (sendQRCodeData true data status input s).2).getD (k + 1) 0 =
          ((sentSids (sendQRCodeData true data status input s).2).getD k 0 + 1) % 256) ∧
      (sentSids (sendQRCodeData true data status input s).2).Nodup := by
  obtain ⟨m, hm, hpos, hsids⟩ := sentSids_sendQRCodeData data status input s hsid
  refine ⟨m, hpos, hm, hsids, ?_, ?_⟩
  · intro k hk
    rw [hsids]
    have h1 : k < m := by omega
    simp only [List.getD_eq_getElem?_getD, List.getElem?_map, List.getElem?_range hk,
      List.getElem?_range h1, Option.map_some', Option.getD_some]
    omega
  · rw [hsids]
    apply List.Nodup.map_on _ (List.nodup_range m)
    intro x hx y hy hxy
    rw [List.mem_range] at hx hy
    have : m ≤ 3 := hm
    omega

/-- C5 at a counter about to wrap: from SID 254 three silent attempts carry 254, 255, 0. -/
theorem C5_sids_distinct_witness :
    sentSids (sendQRCodeData true (ascii "X") (ascii "02") (fun _ => sentAttempt 1000 [emptyPoll])
      { initialState (ascii "01") (ascii "10") 0 with sid := 254 }).2 = [254, 255, 0] ∧
    ∃ m, 0 < m ∧ m ≤ UDP_RETRY_MAX ∧
      sentSids (sendQRCodeData true (ascii "X") (ascii "02")
          (fun _ => sentAttempt 1000 [emptyPoll])
          { initialState (ascii "01") (ascii "10") 0 with sid := 254 }).2 =
        (List.range m).map (fun k => (254 + k) % 256) ∧
      (∀ k, k + 1 < m →
        (sentSids (sendQRCodeData true (ascii "X") (ascii "02")
          (fun _ => sentAttempt 1000 [emptyPoll])
          { initialState (ascii "01") (ascii "10") 0 with sid := 254 }).2).getD (k + 1) 0 =
          ((sentSids (sendQRCodeData true (ascii "X") (ascii "02")
            (fun _ => sentAttempt 1000 [emptyPoll])
            { initialState (ascii "01") (ascii "10") 0 with sid := 254 }).2).getD k 0 + 1)
            % 256) ∧
      (sentSids (sendQRCodeData true (ascii "X") (ascii "02")
        (fun _ => sentAttempt 1000 [emptyPoll])
        { initialState (ascii "01") (ascii "10") 0 with sid := 254 }).2).Nodup :=
  ⟨by decide,
    C5_sids_distinct (ascii "X") (ascii "02") (fun _ => sentAttempt 1000 [emptyPoll])
      { initialState (ascii "01") (ascii "10") 0 with sid := 254 } (by decide)⟩

/-- C6: with the link not connected `sendQRCodeData` only prints the "not connected" line: no
datagram is written, no pending packet is flushed, nothing is delayed, and the state, in
particular `sequenceNumber`, the write SID counter and `lastCommunicationTime`, is unchanged. -/
theorem C6_not_connected (data status : List Nat) (input : Nat → AttemptInput) (s : State) :
    sendQRCodeData false data status input s = (s, [Event.println Msg.wifiNotConnected]) ∧
    sentPackets (sendQRCodeData false data status input s).2 = [] ∧
    flushCount (sendQRCodeData false data status input s).2 = 0 ∧
    delays (sendQRCodeData false data status input s).2 = [] ∧
    (sendQRCodeData false data status input s).1.sequenceNumber = s.sequenceNumber ∧
    (sendQRCodeData false data status input s).1.sid = s.sid ∧
    (sendQRCodeData false data status input s).1.lastCommunicationTime =
      s.lastCommunicationTime := by
  simp [sendQRCodeData, sentPackets, flushCount, delays]

/-! ## Keep-alive -/

theorem sendQRCodeData_lastCommunicationTime (data status : List Nat)
    (input : Nat → AttemptInput) (s : State) (hsend : (input 1).endPacket = 1)
    (hok : (responseWait 1 (input 1).polls).2 = true) :
    (sendQRCodeData true data status input s).1.lastCommunicationTime = (input 1).millis := by
  simp [sendQRCodeData, UDP_RETRY_MAX, attemptLoop, hsend, hok]

/-- The unsigned 32-bit difference of two clock readings, in plain arithmetic: the distance
from `b` up to `a`, through the wrap at `2 ^ 32` when `a` is below `b`. -/
theorem sub32_eq (a b : Nat) (ha : a < 2 ^ 32) (hb : b < 2 ^ 32) :
    sub32 a b = if b ≤ a then a - b else a + 2 ^ 32 - b := by
  unfold sub32
  rw [Nat.mod_eq_of_lt ha, Nat.mod_eq_of_lt hb]
  split_ifs with h
  · have h1 : a + 2 ^ 32 - b = (a - b) + 2 ^ 32 := by omega
    rw [h1, Nat.add_mod_right, Nat.mod_eq_of_lt (by omega)]
  · exact Nat.mod_eq_of_lt (by omega)

/-- C7: with the link connected and `now = millis()`, `last = lastCommunicationTime` two
unsigned 32-bit readings, `checkKeepAlive` emits a keep-alive (exactly one datagram of 12 bytes,
header plus `07 01`, and `lastCommunicationTime` updated) if and only if `now - last`, taken
modulo `2 ^ 32`, is at least `KEEPALIVE_INTERVAL = 15000`: that is `last + 15000 <= now` when
the clock has not wrapped since `last`, and `last + 15000 <= now + 2 ^ 32` when it has; otherwise
it does nothing. So a check made at `now` with `now - t` modulo `2 ^ 32` below 15000 emits
nothing when `lastCommunicationTime` was set to `t` by a keep-alive, or by a write whose first
attempt was sent at `t` and acknowledged. -/
theorem C7_keepalive_gating (k : KeepAliveInput) (s : State)
    (hw : k.wifiConnected = true) (hw2 : k.wifiConnectedAtSend = true)
    (hnow : k.millis < 2 ^ 32) (hlast : s.lastCommunicationTime < 2 ^ 32) :
    KEEPALIVE_INTERVAL = 15000 ∧
    (sentPackets (checkKeepAlive k s).2 ≠ [] ↔
      15000 ≤ (k.millis + 2 ^ 32 - s.lastCommunicationTime) % 2 ^ 32) ∧
    (s.lastCommunicationTime ≤ k.millis →
      (sentPackets (checkKeepAlive k s).2 ≠ [] ↔ s.lastCommunicationTime + 15000 ≤ k.millis)) ∧
    (k.millis < s.lastCommunicationTime →
      (sentPackets (checkKeepAlive k s).2 ≠ [] ↔
        s.lastCommunicationTime + 15000 ≤ k.millis + 2 ^ 32)) ∧
    (15000 ≤ (k.millis + 2 ^ 32 - s.lastCommunicationTime) % 2 ^ 32 →
      checkKeepAlive k s = sendKeepAlive true k.millisAtSend s ∧
      (checkKeepAlive k s).2 = [Event.udpWrite (keepAlivePacket s.keepAliveSid) 12] ∧
      (keepAlivePacket s.keepAliveSid).length = 12 ∧
      (checkKeepAlive k s).1.lastCommunicationTime = k.millisAtSend) ∧
    ((k.millis + 2 ^ 32 - s.lastCommunicationTime) % 2 ^ 32 < 15000 →
      checkKeepAlive k s = (s, [])) ∧
    (∀ t, t < 2 ^ 32 → (k.millis + 2 ^ 32 - t) % 2 ^ 32 < 15000 →
      checkKeepAlive k (sendKeepAlive true t s).1 = ((sendKeepAlive true t s).1, [])) ∧
    (∀ data status input, (input 1).endPacket = 1 → (responseWait 1 (input 1).polls).2 = true →
      (input 1).millis < 2 ^ 32 → (k.millis + 2 ^ 32 - (input 1).millis) % 2 ^ 32 < 15000 →
      checkKeepAlive k (sendQRCodeData true data status input s).1 =
        ((sendQRCodeData true data status input s).1, [])) := by
  have hsub : sub32 k.millis s.lastCommunicationTime =
      (k.millis + 2 ^ 32 - s.lastCommunicationTime) % 2 ^ 32 := by
    unfold sub32
    rw [Nat.mod_eq_of_lt hnow, Nat.mod_eq_of_lt hlast]
  have hiff : sentPackets (checkKeepAlive k s).2 ≠ [] ↔
      15000 ≤ sub32 k.millis s.lastCommunicationTime := by
    by_cases h : KEEPALIVE_INTERVAL ≤ sub32 k.millis s.lastCommunicationTime
    · have h' : 15000 ≤ sub32 k.millis s.lastCommunicationTime := h
      simp [checkKeepAlive, sendKeepAlive, hw, hw2, h, h', sentPackets]
    · have h' : ¬ 15000 ≤ sub32 k.millis s.lastCommunicationTime := h
      simp [checkKeepAlive, hw, h, h', sentPackets]
  have hafter : ∀ (t : Nat) (s2 : State), s2.lastCommunicationTime = t → t < 2 ^ 32 →
      (k.millis + 2 ^ 32 - t) % 2 ^ 32 < 15000 → checkKeepAlive k s2 = (s2, []) := by
    intro t s2 hs2 ht hlt
    have hno : ¬ KEEPALIVE_INTERVAL ≤ sub32 k.millis s2.lastCommunicationTime := by
      rw [hs2]
      unfold sub32
      rw [Nat.mod_eq_of_lt hnow, Nat.mod_eq_of_lt ht]
      exact Nat.not_le.mpr hlt
    simp [checkKeepAlive, hw, hno]
  refine ⟨rfl, ?_, ?_, ?_, ?_, ?_, ?_, ?_⟩
  · rw [← hsub]; exact hiff
  · intro hle
    rw [hiff, sub32_eq _ _ hnow hlast, if_pos hle]
    omega
  · intro hlt
    rw [hiff, sub32_eq _ _ hnow hlast, if_neg (by omega)]
    omega
  · intro h
    rw [← hsub] at h
    have h' : KEEPALIVE_INTERVAL ≤ sub32 k.millis s.lastCommunicationTime := h
    simp [checkKeepAlive, sendKeepAlive, hw, hw2, h', keepAlivePacket, finsHeader]
  · intro h
    rw [← hsub] at h
    have h' : ¬ KEEPALIVE_INTERVAL ≤ sub32 k.millis s.lastCommunicationTime := Nat.not_le.mpr h
    simp [checkKeepAlive, hw, h']
  · intro t hle hlt
    exact hafter t _ (by simp [sendKeepAlive]) hle hlt
  · intro data status input hsend hok hle hlt
    exact hafter _ _ (sendQRCodeData_lastCommunicationTime data status input s hsend hok) hle hlt

/-- C7 with `lastCommunicationTime = 5000`: a check at 20000 ms emits the keep-alive and a
check at 19999 ms does not; and with `lastCommunicationTime = 4294967000`, before the clock
wraps: a check at 14704 ms, 15000 ms later, emits it and a check at 14703 ms does not. -/
theorem C7_keepalive_gating_witness :
    (checkKeepAlive (keepAliveAt 20000)
      { initialState (ascii "01") (ascii "10") 0 with lastCommunicationTime := 5000 }).2 =
      [Event.udpWrite [0x80, 0, 2, 0, 2, 0, 0, 0xFA, 0, 0x80, 0x07, 0x01] 12] ∧
    (checkKeepAlive (keepAliveAt 19999)
      { initialState (ascii "01") (ascii "10") 0 with lastCommunicationTime := 5000 }).2 = [] ∧
    (checkKeepAlive (keepAliveAt 14704)
      { initialState (ascii "01") (ascii "10") 0 with
        lastCommunicationTime := 4294967000 }).2 =
      [Event.udpWrite [0x80, 0, 2, 0, 2, 0, 0, 0xFA, 0, 0x80, 0x07, 0x01] 12] ∧
    (checkKeepAlive (keepAliveAt 14703)
      { initialState (ascii "01") (ascii "10") 0 with
        lastCommunicationTime := 4294967000 }).2 = [] ∧
    (sentPackets (checkKeepAlive (keepAliveAt 19999)
        { initialState (ascii "01") (ascii "10") 0 with lastCommunicationTime := 5000 }).2
        ≠ [] ↔ 5000 + 15000 ≤ 19999) ∧
    (sentPackets (checkKeepAlive (keepAliveAt 14704)
        { initialState (ascii "01") (ascii "10") 0 with
          lastCommunicationTime := 4294967000 }).2 ≠ [] ↔
      4294967000 + 15000 ≤ 14704 + 2 ^ 32) :=
  ⟨by decide, by decide, by decide, by decide,
    (C7_keepalive_gating (keepAliveAt 19999)
      { initialState (ascii "01") (ascii "10") 0 with lastCommunicationTime := 5000 }
      rfl rfl (by decide) (by decide)).2.2.1 (by decide),
    (C7_keepalive_gating (keepAliveAt 14704)
      { initialState (ascii "01") (ascii "10") 0 with lastCommunicationTime := 4294967000 }
      rfl rfl (by decide) (by decide)).2.2.2.1 (by decide)⟩

/-! ## Scan session -/

theorem triggerCalls_append (t u : List Event) :
    triggerCalls (t ++ u) = triggerCalls t ++ triggerCalls u := by
  induction t with
  | nil => rfl
  | cons e t ih => cases e <;> simp [triggerCalls, ih]

theorem triggerCalls_replicate_flush (n : Nat) :
    triggerCalls (List.replicate n Event.udpFlush) = [] := by
  induction n with
  | zero => rfl
  | succ n ih => simp [List.replicate_succ, triggerCalls, ih]

theorem triggerCalls_retryPause (attempt : Nat) : triggerCalls (retryPause attempt) = [] := by
  unfold retryPause
  split_ifs <;> simp [triggerCalls]

theorem triggerCalls_responseWait (attempt : Nat) (polls : List Poll) :
    triggerCalls (responseWait attempt polls).1 = [] := by
  induction polls with
  | nil => rfl
  | cons p rest ih =>
    simp only [responseWait]
    split_ifs
    · simp [triggerCalls]
    · simp [triggerCalls, triggerCalls_retryPause]
    · simpa [triggerCalls] using ih

theorem triggerCalls_attemptLoop (data status : List Nat) (seq : Nat)
    (input : Nat → AttemptInput) (remaining attempt : Nat) (s : State) :
    triggerCalls (attemptLoop data status seq input remaining attempt s).2.1 = [] := by
  induction remaining generalizing attempt s with
  | zero => rfl
  | succ n ih =>
    simp only [attemptLoop]
    split_ifs <;>
      simp [triggerCalls_append, triggerCalls_replicate_flush, triggerCalls_retryPause,
        triggerCalls_responseWait, triggerCalls, ih]

/-- A write never touches the scanner trigger, the scan timer or the status. -/
theorem sendQRCodeData_scan_frame (wifiConnected : Bool) (data status : List Nat)
    (input : Nat → AttemptInput) (s : State) :
    triggerCalls (sendQRCodeData wifiConnected data status input s).2 = [] ∧
    (sendQRCodeData wifiConnected data status input s).1.decodeTrigger = s.decodeTrigger ∧
    (sendQRCodeData wifiConnected data status input s).1.scanStartTime = s.scanStartTime ∧
    (sendQRCodeData wifiConnected data status input s).1.currentStatus = s.currentStatus := by
  cases wifiConnected with
  | false => simp [sendQRCodeData, triggerCalls]
  | true =>
    have hf := sendQRCodeData_frame data status input s
    refine ⟨?_, hf.2.2.2.2.2.2, hf.2.2.2.1, hf.2.2.1⟩
    simp only [sendQRCodeData, Bool.not_true, Bool.false_eq_true, if_false,
      triggerCalls_append, triggerCalls_attemptLoop]
    split_ifs <;> simp [triggerCalls]

/-- Function `handleQRCodeScan` never calls `setDecodeTrigger`; when a decode is ready it
clears the scan timer, otherwise it changes nothing. -/
theorem handleQRCodeScan_scan (q : ScanInput) (s : State) :
    triggerCalls (handleQRCodeScan q s).2 = [] ∧
    (handleQRCodeScan q s).1.decodeTrigger = s.decodeTrigger ∧
    (handleQRCodeScan q s).1.currentStatus = s.currentStatus ∧
    ((handleQRCodeScan q s).1.scanStartTime = 0 ∨
      (handleQRCodeScan q s).1.scanStartTime = s.scanStartTime) ∧
    (q.decodeReadyStatus = 1 → q.decodeData.length < DECODE_BUFFER_CAPACITY →
      (handleQRCodeScan q s).1.scanStartTime = 0) ∧
    (q.decodeReadyStatus ≠ 1 → handleQRCodeScan q s = (s, [])) := by
  have hf := sendQRCodeData_scan_frame q.wifiConnected q.decodeData s.currentStatus q.attempts s
  by_cases hr : q.decodeReadyStatus = 1
  · by_cases hbuf : DECODE_BUFFER_CAPACITY ≤ q.decodeData.length
    · simp [handleQRCodeScan, hr, hbuf, triggerCalls, Nat.not_lt.mpr hbuf]
    · by_cases hc : s.currentStatus = []
      · simp [handleQRCodeScan, hr, hbuf, hc, triggerCalls]
      · simp [handleQRCodeScan, hr, hbuf, hc, hf]
  · simp [handleQRCodeScan, hr, triggerCalls]

/-- Function `checkKeepAlive` never touches the scanner trigger, the scan timer or the
status. -/
theorem checkKeepAlive_scan (k : KeepAliveInput) (s : State) :
    triggerCalls (checkKeepAlive k s).2 = [] ∧
    (checkKeepAlive k s).1.decodeTrigger = s.decodeTrigger ∧
    (checkKeepAlive k s).1.scanStartTime = s.scanStartTime ∧
    (checkKeepAlive k s).1.currentStatus = s.currentStatus := by
  unfold checkKeepAlive sendKeepAlive
  split_ifs <;> simp [triggerCalls]

theorem handleButtonInput_none (b : ButtonInput) (s : State) (hA : b.btnA = false)
    (hB : b.btnB = false) (hC : b.btnC = false) : handleButtonInput b s = (s, []) := by
  simp [handleButtonInput, hA, hB, hC]

theorem loop_idle_noButton (i : LoopInput) (s : State) (hs : s.scanStartTime = 0)
    (hb : i.noButton) :
    (loop i s).1.scanStartTime = 0 ∧ triggerCalls (loop i s).2 = [] := by
  have hq := handleQRCodeScan_scan i.scan s
  have h1 : (handleQRCodeScan i.scan s).1.scanStartTime = 0 := by
    rcases hq.2.2.2.1 with h0 | hsame
    · exact h0
    · rw [hsame]; exact hs
  have h2 := handleButtonInput_none i.buttons (handleQRCodeScan i.scan s).1 hb.1 hb.2.1 hb.2.2
  have h3 : checkScanTimeout i.millisTimeout (handleQRCodeScan i.scan s).1 =
      ((handleQRCodeScan i.scan s).1, []) := by
    simp [checkScanTimeout, h1]
  have hk := checkKeepAlive_scan i.keepAlive (handleQRCodeScan i.scan s).1
  simp only [loop, h2, h3, triggerCalls_append, hq.1, hk.1, hk.2.2.1, h1, triggerCalls,
    List.append_nil, and_self]

theorem runLoop_idle_noButton (later : List LoopInput) (s : State) (hs : s.scanStartTime = 0)
    (hb : ∀ j ∈ later, j.noButton) :
    (runLoop later s).1.scanStartTime = 0 ∧ triggerCalls (runLoop later s).2 = [] := by
  induction later generalizing s with
  | nil => exact ⟨hs, rfl⟩
  | cons i rest ih =>
    have h1 := loop_idle_noButton i s hs (hb i (List.mem_cons_self _ _))
    have h2 := ih (loop i s).1 h1.1 (fun j hj => hb j (List.mem_cons_of_mem _ hj))
    simp only [runLoop, triggerCalls_append, h1.2, h2.1, h2.2, List.append_nil, and_self]

/-- C9: from AwaitingScan with `scanStartTime = t != 0`, on a pass of `loop()` with no decode
ready and no button pressed: if `millis() - t >= SCAN_TIMEOUT_MS = 20000` (unsigned 32-bit) the
pass leaves `scanStartTime = 0`, its only trigger call is one `setDecodeTrigger(0)`, and no
later passes without a button press make any trigger call; if `millis() - t < SCAN_TIMEOUT_MS`
the scan timer, the status and the trigger are as before and no trigger call is made. -/
theorem C9_scan_timeout (s : State) (i : LoopInput) (later : List LoopInput)
    (ht : s.scanStartTime ≠ 0) (hq : i.quiet) (hlater : ∀ j ∈ later, j.noButton) :
    SCAN_TIMEOUT_MS = 20000 ∧
    (SCAN_TIMEOUT_MS ≤ sub32 i.millisTimeout s.scanStartTime →
      (loop i s).1.scanStartTime = 0 ∧ (loop i s).1.decodeTrigger = 0 ∧
      triggerCalls (loop i s).2 = [0] ∧ disarmCount (loop i s).2 = 1 ∧
      triggerCalls (runLoop later (loop i s).1).2 = [] ∧
      disarmCount (runLoop later (loop i s).1).2 = 0 ∧
      (runLoop later (loop i s).1).1.scanStartTime = 0) ∧
    (sub32 i.millisTimeout s.scanStartTime < SCAN_TIMEOUT_MS →
      (loop i s).1.scanStartTime = s.scanStartTime ∧
      (loop i s).1.decodeTrigger = s.decodeTrigger ∧
      (loop i s).1.currentStatus = s.currentStatus ∧
      triggerCalls (loop i s).2 = [] ∧ disarmCount (loop i s).2 = 0) := by
  have h1 : handleQRCodeScan i.scan s = (s, []) := (handleQRCodeScan_scan i.scan s).2.2.2.2.2 hq.1
  have h2 := handleButtonInput_none i.buttons s hq.2.1 hq.2.2.1 hq.2.2.2
  refine ⟨rfl, ?_, ?_⟩
  · intro hfire
    have h3 : checkScanTimeout i.millisTimeout s =
        ({ s with decodeTrigger := 0, scanStartTime := 0 },
          [Event.setDecodeTrigger 0, Event.println Msg.scanTimeout]) := by
      simp [checkScanTimeout, ht, hfire]
    have hk := checkKeepAlive_scan i.keepAlive { s with decodeTrigger := 0, scanStartTime := 0 }
    have hloop : (loop i s).1.scanStartTime = 0 ∧ (loop i s).1.decodeTrigger = 0 ∧
        triggerCalls (loop i s).2 = [0] := by
      simp only [loop, h1, h2, h3, triggerCalls_append, hk.1, hk.2.1, hk.2.2.1, triggerCalls,
        List.nil_append, List.append_nil, and_self]
    have hrun := runLoop_idle_noButton later (loop i s).1 hloop.1 hlater
    refine ⟨hloop.1, hloop.2.1, hloop.2.2, ?_, hrun.2, ?_, hrun.1⟩
    · simp [disarmCount, hloop.2.2]
    · simp [disarmCount, hrun.2]
  · intro hno
    have h3 : checkScanTimeout i.millisTimeout s = (s, []) := by
      simp [checkScanTimeout, ht, Nat.not_le.mpr hno]
    have hk := checkKeepAlive_scan i.keepAlive s
    have hloop : triggerCalls (loop i s).2 = [] := by
      simp only [loop, h1, h2, h3, triggerCalls_append, hk.1, triggerCalls, List.append_nil]
    refine ⟨?_, ?_, ?_, hloop, ?_⟩
    · simp only [loop, h1, h2, h3, hk.2.2.1]
    · simp only [loop, h1, h2, h3, hk.2.1]
    · simp only [loop, h1, h2, h3, hk.2.2.2]
    · simp [disarmCount, hloop]

/-- C9 after pressing A at 1000 ms: the pass at 21000 ms disarms once and the passes at 21010
and 40000 ms make no trigger call; a pass at 20999 ms leaves the timer at 1000. -/
theorem C9_scan_timeout_witness :
    triggerCalls (loop (idlePass 21000)
      (loop (pressA 1000) (initialState (ascii "01") (ascii "10") 0)).1).2 = [0] ∧
    triggerCalls (runLoop [idlePass 21010, idlePass 40000] (loop (idlePass 21000)
      (loop (pressA 1000) (initialState (ascii "01") (ascii "10") 0)).1).1).2 = [] ∧
    (loop (idlePass 20999)
      (loop (pressA 1000) (initialState (ascii "01") (ascii "10") 0)).1).1.scanStartTime
      = 1000 :=
  have h := C9_scan_timeout (loop (pressA 1000) (initialState (ascii "01") (ascii "10") 0)).1
    (idlePass 21000) [idlePass 21010, idlePass 40000] (by decide)
    ⟨by decide, rfl, rfl, rfl⟩
    (by
      intro j hj
      simp only [List.mem_cons, List.mem_singleton, List.not_mem_nil, or_false] at hj
      rcases hj with rfl | rfl <;> exact ⟨rfl, rfl, rfl⟩)
  ⟨(h.2.1 (by decide)).2.2.1, (h.2.1 (by decide)).2.2.2.2.1, by decide⟩

/-- C10, the code at scenario S2 (SID counter 0, sequence counter 0): attempt 1 is answered
with end code `21 02`, attempt 2 with `00 00`. Between the two sends the code prints the PLC
error, sleeps `UDP_RETRY_DELAY`, prints the response-timeout line and sleeps `UDP_RETRY_DELAY`
again. -/
theorem C10_plc_error_retry_trace :
    (sendQRCodeData true (ascii "X") (ascii "02") (scenarioS2Input 0)
      (initialState (ascii "01") (ascii "10") 0)).2 =
      [Event.udpWrite (finsPacket 0 (ascii "011002X01")) 28,
        Event.delay 10,
        Event.println (Msg.plcError 0x21 0x02),
        Event.delay UDP_RETRY_DELAY,
        Event.println Msg.responseTimeout,
        Event.delay UDP_RETRY_DELAY,
        Event.udpWrite (finsPacket 1 (ascii "011002X01")) 28,
        Event.delay 10,
        Event.println Msg.writeSucceeded] ∧
    (delays (sendQRCodeData true (ascii "X") (ascii "02") (scenarioS2Input 0)
      (initialState (ascii "01") (ascii "10") 0)).2).count UDP_RETRY_DELAY = 2 := by
  decide

/-! ## Capacity of the packet buffer -/

set_option maxRecDepth 100000 in
/-- C11, the code at the longest decode that fits the 512-byte receive buffer of
`handleQRCodeScan` with its terminator (511 bytes), with two-character line id, operation id
and status: `sendQRCodeData` computes a datagram size of 538 and stores 538 bytes into the
512-byte `finsPacket`. A decode of 486 bytes fills the buffer exactly (512) and one of 487
bytes is the first to pass it (514). -/
theorem C11_packet_exceeds_buffer :
    (decodeOfLength 511).length + 1 ≤ DECODE_BUFFER_CAPACITY ∧
    FINS_PACKET_CAPACITY = 512 ∧
    decodeWriteSizes 511 = [(538, 538)] ∧
    decodeWriteSizes 487 = [(514, 514)] ∧
    decodeWriteSizes 486 = [(512, 512)] := by
  decide

end SeibiQR
